import Mathlib

/-!
Verification of the authentication / ownership subsystem of the task-tracking
API against its natural-language specification.

The Rust source is shallowly embedded:

* SeaORM entities become Lean structures; the `tasks` table row carries the
  nullable `user_id` column added by migration `m20250615_081240`, which the
  `task_entity::Model` does not expose (so the repository projects it away).
* Uuids are modelled as `Nat`; `user.id.to_string()` becomes `toString`.
* Database stores are lists of rows; the repository functions of
  `task_repository.rs` / `user_repository.rs` become pure functions on them.
* Fallible Rust functions returning `Result<T, AppError>` become
  `Except AppError T`.
* The external argon2 password-hashing library is a parameter: `hashFn`
  (hash with a fresh salt), `parse` (`PasswordHash::new`) and `verifyPw`
  (`Argon2::verify_password`) are passed in explicitly.
* The external jsonwebtoken library is modelled from the spec (section 4.5):
  a signed token is a string carrying the claims plus a signature component
  bound to the signing secret; `decodeToken` accepts exactly the tokens whose
  signature component matches the configured secret and whose `exp` lies in
  the future, and rejects everything else.
-/

namespace TaskApi

/-- Decidable equality for `Except`, so that concrete outcomes of the
embedded fallible operations can be checked by `decide`. -/
instance instDecEqExcept {ε α : Type} [DecidableEq ε] [DecidableEq α] :
    DecidableEq (Except ε α) := fun x y =>
  match x, y with
  | .ok a, .ok b =>
    if h : a = b then isTrue (by rw [h]) else isFalse (by simp [h])
  | .error a, .error b =>
    if h : a = b then isTrue (by rw [h]) else isFalse (by simp [h])
  | .ok _, .error _ => isFalse (by simp)
  | .error _, .ok _ => isFalse (by simp)

/-! ## Data model -/

/-- A row of the `tasks` table as it exists in the database: the columns of
`migration/src/task_entity.rs` plus the nullable `user_id` column added by
migration `m20250615_081240_add_user_id_to_tasks.rs`. -/
structure TaskRow where
  id : Nat
  title : String
  description : Option String
  completed : Bool
  createdAt : Int
  updatedAt : Int
  userId : Option Nat
deriving Repr, DecidableEq

/-- `task_entity::Model` (migration/src/task_entity.rs): the entity the
application sees. It has no owner field; the `user_id` column is invisible
to it. -/
structure TaskModel where
  id : Nat
  title : String
  description : Option String
  completed : Bool
  createdAt : Int
  updatedAt : Int
deriving Repr, DecidableEq

/-- Projection of a database row onto the entity columns selected by SeaORM
queries against `task_entity::Entity`. -/
def rowToModel (r : TaskRow) : TaskModel :=
  { id := r.id, title := r.title, description := r.description,
    completed := r.completed, createdAt := r.createdAt, updatedAt := r.updatedAt }

/-- Rewrites only the `user_id` column of a row, leaving every entity column
unchanged. Used to state that the application never consults task ownership. -/
def setUserId (owner : Option Nat) (r : TaskRow) : TaskRow :=
  { r with userId := owner }

/-- `migration::user_entity::Model` (migration/src/user_entity.rs): a row of
the `user` table, with a unique index on `username`. -/
structure UserModel where
  id : Nat
  username : String
  passwordHash : String
deriving Repr, DecidableEq

/-- `UserResponse` (src/app/model/user_entity.rs): public profile, without the
password hash. -/
structure UserResponse where
  id : Nat
  username : String
deriving Repr, DecidableEq

/-! ## Errors (src/error.rs) -/

/-- The storage-layer error (`sea_orm::DbErr`) as it reaches the application:
the only case the spec cares about is an insert rejected by a uniqueness
constraint. -/
inductive DbError
  | uniqueViolation (message : String)
deriving Repr, DecidableEq

/-- `AppError` (src/error.rs). -/
inductive AppError
  | TaskNotFound (id : Nat)
  | BadRequest (message : String)
  | DbErr (e : DbError)
  | UserAlreadyExists (username : String)
  | InvalidCredentials
  | PasswordHashError (message : String)
  | TokenGenerationError (message : String)
  | InvalidToken (message : String)
deriving Repr, DecidableEq

/-- The HTTP status chosen by `impl IntoResponse for AppError`
(src/error.rs, the `match self` in `into_response`). -/
def AppError.responseStatus : AppError → Nat
  | .TaskNotFound _ => 404
  | .BadRequest _ => 400
  | .DbErr _ => 500
  | .UserAlreadyExists _ => 409
  | .InvalidCredentials => 401
  | .PasswordHashError _ => 500
  | .TokenGenerationError _ => 500
  | .InvalidToken _ => 401

/-- The outward message chosen by `impl IntoResponse for AppError`.
Internal detail (`DbErr`, hashing, signing) is replaced by the generic
"服务器内部错误" body; the username in the conflict message is kept (the
source wraps it in single quotes, elided here). -/
def AppError.responseMessage : AppError → String
  | .TaskNotFound id => "未找到ID为 " ++ toString id ++ " 的任务"
  | .BadRequest msg => msg
  | .DbErr _ => "服务器内部错误"
  | .UserAlreadyExists username => "用户名 " ++ username ++ " 已存在"
  | .InvalidCredentials => "用户名或密码错误"
  | .PasswordHashError _ => "服务器内部错误"
  | .TokenGenerationError _ => "服务器内部错误"
  | .InvalidToken msg => "无效的令牌: " ++ msg

/-- The full boundary response for an error: status code and message body. -/
def AppError.response (e : AppError) : Nat × String :=
  (e.responseStatus, e.responseMessage)

/-! ## Task repository (src/app/repository/task_repository.rs) -/

namespace TaskRepository

/-- `find_all`: `Entity::find().all(&self.db)` — every row, no filter. -/
def find_all (db : List TaskRow) : List TaskModel :=
  db.map rowToModel

/-- `find_by_id`: `Entity::find_by_id(id).one(&self.db)` — matches on the
primary key alone; no other column participates in the query. -/
def find_by_id (db : List TaskRow) (id : Nat) : Option TaskModel :=
  (db.find? (fun r => r.id == id)).map rowToModel

/-- `create`: inserts the active model; columns the active model does not set
(`created_at`, `updated_at`, and the `user_id` column, which the entity does
not even have) take their database defaults. -/
def create (db : List TaskRow) (r : TaskRow) : List TaskRow × TaskModel :=
  (db ++ [r], rowToModel r)

/-- `delete`: `Entity::delete_by_id(id).exec(&self.db)` — removes the rows
whose primary key matches and reports how many were affected. -/
def delete (db : List TaskRow) (id : Nat) : List TaskRow × Nat :=
  let remaining := db.filter (fun r => !(r.id == id))
  (remaining, db.length - remaining.length)

end TaskRepository

/-! ## Task payloads (src/app/model/task.rs) -/

/-- `CreateTaskPayload`. -/
structure CreateTaskPayload where
  title : String
  description : Option String
  completed : Bool
deriving Repr, DecidableEq

/-- `UpdateTaskPayload` after deserialization: every field optional. -/
structure UpdateTaskPayload where
  title : Option String
  description : Option String
  completed : Option Bool
deriving Repr, DecidableEq

/-- The three states a field of an incoming JSON update body can be in. -/
inductive JsonField (α : Type)
  | missing
  | null
  | value (v : α)
deriving Repr, DecidableEq

/-- The `double_option::deserialize` function of src/app/model/task.rs:
an absent key and an explicit `null` both come out as `none`; only a real
value survives as `some`. -/
def doubleOptionDeserialize {α : Type} : JsonField α → Option α
  | .missing => none
  | .null => none
  | .value v => some v

/-- The stock serde handling of an `Option<T>` field with `#[serde(default)]`:
an absent key and an explicit `null` both deserialize to `None`. The mapping
coincides with `doubleOptionDeserialize`. -/
def optionFieldDeserialize {α : Type} : JsonField α → Option α
  | .missing => none
  | .null => none
  | .value v => some v

/-- The JSON body of a `PUT /tasks/:id` request, field by field. -/
structure UpdateTaskJson where
  title : JsonField String
  description : JsonField String
  completed : JsonField Bool
deriving Repr, DecidableEq

/-- Deserialization of `UpdateTaskPayload` from a JSON body: `title` and
`completed` use the stock serde `Option` handling, `description` goes through
`double_option`. -/
def parseUpdateTaskJson (j : UpdateTaskJson) : UpdateTaskPayload :=
  { title := optionFieldDeserialize j.title,
    description := doubleOptionDeserialize j.description,
    completed := optionFieldDeserialize j.completed }

/-! ## Task service (src/app/service/task_service.rs) -/

/-- The row produced by the `ActiveModel` that `create_task` builds: `id`
fresh, `title`, `description`, `completed` from the payload, everything else
left to database defaults — in particular the `user_id` column, which the
active model cannot even name, stays NULL. -/
def newTaskRow (freshId : Nat) (nowDb : Int) (payload : CreateTaskPayload) : TaskRow :=
  { id := freshId, title := payload.title, description := payload.description,
    completed := payload.completed, createdAt := nowDb, updatedAt := nowDb,
    userId := none }

/-- `create_task`: builds the active model from the payload and inserts it.
The function has no notion of a caller: no principal is consulted. -/
def create_task (db : List TaskRow) (freshId : Nat) (nowDb : Int)
    (payload : CreateTaskPayload) : List TaskRow × TaskModel :=
  TaskRepository.create db (newTaskRow freshId nowDb payload)

/-- `get_all_tasks`: returns whatever `find_all` returns (the DTO conversion
`db_task.into()` is field-preserving). -/
def get_all_tasks (db : List TaskRow) : List TaskModel :=
  TaskRepository.find_all db

/-- `get_task_by_id`: `find_by_id`, with `None` turned into
`AppError::TaskNotFound(id)`. -/
def get_task_by_id (db : List TaskRow) (id : Nat) : Except AppError TaskModel :=
  match TaskRepository.find_by_id db id with
  | some m => .ok m
  | none => .error (.TaskNotFound id)

/-- The field updates `update_task` performs on the fetched active model:
each payload field that is `Some` overwrites the stored column, each `None`
leaves it untouched. The `user_id` column is not part of the active model and
is never written. -/
def applyUpdate (p : UpdateTaskPayload) (r : TaskRow) : TaskRow :=
  let r1 := match p.title with
    | some t => { r with title := t }
    | none => r
  let r2 := match p.description with
    | some d => { r1 with description := some d }
    | none => r1
  match p.completed with
  | some c => { r2 with completed := c }
  | none => r2

/-- `update_task`: fetch by id (TaskNotFound if absent), apply the payload
fields that are present, write the row back by primary key. -/
def update_task (db : List TaskRow) (id : Nat) (p : UpdateTaskPayload) :
    Except AppError (List TaskRow × TaskModel) :=
  match db.find? (fun r => r.id == id) with
  | none => .error (.TaskNotFound id)
  | some r =>
    .ok (db.map (fun s => if s.id == id then applyUpdate p s else s),
         rowToModel (applyUpdate p r))

/-- `delete_task`: delete by id; `rows_affected == 0` becomes
`AppError::TaskNotFound(id)`. -/
def delete_task (db : List TaskRow) (id : Nat) : Except AppError (List TaskRow) :=
  let res := TaskRepository.delete db id
  if res.2 == 0 then .error (.TaskNotFound id) else .ok res.1

/-! ## User repository (src/app/repository/user_repository.rs) -/

namespace UserRepository

/-- `find_by_username`: `Entity::find().filter(Column::Username.eq(username)).one(..)`. -/
def find_by_username (db : List UserModel) (username : String) : Option UserModel :=
  db.find? (fun u => u.username == username)

/-- `create`: `data.insert(&self.db)`. The unique index on `username`
(`#[sea_orm(unique)]` in migration/src/user_entity.rs) makes the store itself
reject an insert whose username is already present, whatever the application
checked beforehand. -/
def create (db : List UserModel) (u : UserModel) :
    Except DbError (List UserModel × UserModel) :=
  if db.any (fun v => v.username == u.username) then
    .error (.uniqueViolation "UNIQUE constraint failed: user.username")
  else
    .ok (db ++ [u], u)

end UserRepository

/-! ## Auth payloads and validation (src/app/model/auth.rs,
src/app/controller/auth_controller.rs) -/

/-- `RegisterRequest`. -/
structure RegisterRequest where
  username : String
  password : String
  confirmPassword : String
deriving Repr, DecidableEq

/-- `LoginRequest`. -/
structure LoginRequest where
  username : String
  password : String
deriving Repr, DecidableEq

/-- The validator rules on `RegisterRequest` (src/app/model/auth.rs):
`username` at least 3 characters, `password` at least 8 characters,
`confirm_password` equal to `password`. There is no upper bound on the
username length in the source. -/
def RegisterRequest.isValid (r : RegisterRequest) : Bool :=
  3 ≤ r.username.length && 8 ≤ r.password.length && r.confirmPassword == r.password

/-! ## Password hashing (external argon2 library, parameterized)

`hashFn` stands for `Argon2::hash_password` with a salt fresh for the call;
`parse` stands for `PasswordHash::new` (an `Except` because the source keeps
the error message via `e.to_string()`); `verifyPw` stands for
`Argon2::verify_password`. -/

/-- A successfully parsed self-describing hash string. -/
structure ParsedHash where
  raw : String
deriving Repr, DecidableEq

/-! ## Claims and tokens (src/app/service/auth_service.rs,
src/app/middleware/auth_middleware.rs; the token container format is
modelled from the spec, section 4.5) -/

/-- `Claims`, identical in auth_service.rs and auth_middleware.rs. -/
structure Claims where
  sub : String
  username : String
  exp : Int
  iat : Int
deriving Repr, DecidableEq

/-- The fixed token lifetime: `24 * 60 * 60` seconds (auth_service.rs). -/
def tokenLifetimeSeconds : Int := 24 * 60 * 60

/-- The claims `login_user` builds on success:
`sub = user.id.to_string()`, `username`, `iat = now`,
`exp = now + 24h` (auth_service.rs, step 3). -/
def loginClaims (user : UserModel) (now : Int) : Claims :=
  { sub := toString user.id, username := user.username,
    exp := now + tokenLifetimeSeconds, iat := now }

/-- Splits a character list at every occurrence of the separator
(kernel-reducible counterpart of `String.splitOn` for a one-character
separator). -/
def splitOnChar (c : Char) : List Char → List (List Char)
  | [] => [[]]
  | x :: xs =>
    let rest := splitOnChar c xs
    if x == c then
      [] :: rest
    else
      match rest with
      | [] => [[x]]
      | y :: ys => (x :: y) :: ys

/-- String-level wrapper of `splitOnChar`. -/
def splitTok (s : String) (c : Char) : List String :=
  (splitOnChar c s.data).map String.mk

/-- Parses a nonempty all-digit character list as a natural number
(kernel-reducible counterpart of `String.toNat?`). -/
def digitsToNat : List Char → Option Nat
  | [] => none
  | l => go l 0
where
  go : List Char → Nat → Option Nat
    | [], acc => some acc
    | c :: cs, acc =>
      if c.isDigit then go cs (acc * 10 + (c.toNat - 48)) else none

/-- Parses an optionally-signed decimal integer (kernel-reducible counterpart
of `String.toInt?`). -/
def strToInt (s : String) : Option Int :=
  match s.data with
  | '-' :: rest => (digitsToNat rest).map (fun n => -(n : Int))
  | l => (digitsToNat l).map (fun n => (n : Int))

/-- Modelled from the spec: `jsonwebtoken::encode` — the signed token carries
the claims and a signature component bound to the signing secret. -/
def encodeToken (c : Claims) (secret : String) : String :=
  c.sub ++ "|" ++ c.username ++ "|" ++ toString c.exp ++ "|" ++ toString c.iat
    ++ "|sig:" ++ secret

/-- Modelled from the spec: `jsonwebtoken::decode` with
`Validation::default()` — decoding succeeds exactly when the token parses as
a signed-claims container, its signature component matches the configured
secret, and its `exp` is still in the future; a bad signature, a malformed
token and an expired token all fail identically (with `None`). -/
def decodeToken (token : String) (secret : String) (now : Int) : Option Claims :=
  match splitTok token '|' with
  | [sub, uname, expStr, iatStr, sig] =>
    match strToInt expStr, strToInt iatStr with
    | some exp, some iat =>
      if sig == "sig:" ++ secret && now < exp then
        some { sub := sub, username := uname, exp := exp, iat := iat }
      else
        none
    | _, _ => none
  | _ => none

/-- `AuthResponse` (auth_service.rs). -/
structure AuthResponse where
  accessToken : String
  tokenType : String
  expiresIn : Int
  user : UserResponse
deriving Repr, DecidableEq

/-! ## Auth service (src/app/service/auth_service.rs) -/

/-- `register_user`, with the moment of the username pre-check and the moment
of the insert allowed to see different store states (`dbAtCheck`,
`dbAtInsert`): this is exactly the interleaving in which a concurrent
registration commits between the two. The sequential call is the special case
`dbAtCheck = dbAtInsert` (`register_user` below).

Steps as in the source: pre-check via `find_by_username` (UserAlreadyExists
on a hit), hash the password, build the active model with a fresh id, insert;
a storage error propagates through `?` as `AppError::DbErr`. -/
def register_user_race (hashFn : String → String) (freshId : Nat)
    (dbAtCheck dbAtInsert : List UserModel) (payload : RegisterRequest) :
    Except AppError (List UserModel × UserResponse) :=
  match UserRepository.find_by_username dbAtCheck payload.username with
  | some _ => .error (.UserAlreadyExists payload.username)
  | none =>
    let hashed := hashFn payload.password
    let newUser : UserModel :=
      { id := freshId, username := payload.username, passwordHash := hashed }
    match UserRepository.create dbAtInsert newUser with
    | .error e => .error (.DbErr e)
    | .ok (db2, created) => .ok (db2, { id := created.id, username := created.username })

/-- `register_user` without interference: both repository calls see the same
store. -/
def register_user (hashFn : String → String) (freshId : Nat)
    (db : List UserModel) (payload : RegisterRequest) :
    Except AppError (List UserModel × UserResponse) :=
  register_user_race hashFn freshId db db payload

/-- `login_user`: look up by username (`InvalidCredentials` if absent), parse
the stored hash (`PasswordHashError` if malformed), verify the password
(`InvalidCredentials` on mismatch), then issue the token and the response. -/
def login_user (parse : String → Except String ParsedHash)
    (verifyPw : String → ParsedHash → Bool)
    (db : List UserModel) (payload : LoginRequest) (now : Int)
    (jwtSecret : String) : Except AppError AuthResponse :=
  match UserRepository.find_by_username db payload.username with
  | none => .error .InvalidCredentials
  | some user =>
    match parse user.passwordHash with
    | .error e => .error (.PasswordHashError e)
    | .ok ph =>
      if verifyPw payload.password ph then
        .ok { accessToken := encodeToken (loginClaims user now) jwtSecret,
              tokenType := "Bearer",
              expiresIn := tokenLifetimeSeconds,
              user := { id := user.id, username := user.username } }
      else
        .error .InvalidCredentials

/-! ## Auth controller (src/app/controller/auth_controller.rs) -/

/-- `register_handler`: validate the payload first — on failure return
`AppError::BadRequest` without constructing or touching the repository —
then delegate to `register_user`. -/
def register_handler (hashFn : String → String) (freshId : Nat)
    (db : List UserModel) (payload : RegisterRequest) :
    Except AppError (List UserModel × UserResponse) :=
  if !payload.isValid then
    .error (.BadRequest "输入验证失败")
  else
    register_user hashFn freshId db payload

/-! ## JWT middleware (src/app/middleware/auth_middleware.rs) -/

/-- `AuthenticatedUser`: the request-scoped principal. -/
structure AuthenticatedUser where
  user_id : String
  username : String
deriving Repr, DecidableEq

/-- `impl From<Claims> for AuthenticatedUser`: `user_id = claims.sub`. -/
def AuthenticatedUser.ofClaims (c : Claims) : AuthenticatedUser :=
  { user_id := c.sub, username := c.username }

/-- The part of an incoming request the middleware looks at: the
`Authorization` header, if any. -/
structure Request where
  authHeader : Option String
deriving Repr, DecidableEq

/-- `str::starts_with` (kernel-reducible counterpart of
`String.startsWith`). -/
def strStartsWith (s p : String) : Bool :=
  p.data.isPrefixOf s.data

/-- `&s[n..]` for an ASCII head, i.e. dropping the first `n` characters
(kernel-reducible counterpart of `String.drop`). -/
def strDropChars (s : String) (n : Nat) : String :=
  ⟨s.data.drop n⟩

/-- `jwt_auth_impl`: no header → 401; header not of the form
`Bearer <token>` → 401; token (the header after the 7-character prefix)
fails to decode → 401; otherwise admit with the principal built from the
claims. -/
def jwt_auth_impl (jwtSecret : String) (now : Int) (req : Request) :
    Except Nat AuthenticatedUser :=
  match req.authHeader with
  | none => .error 401
  | some header =>
    if !strStartsWith header "Bearer " then
      .error 401
    else
      match decodeToken (strDropChars header 7) jwtSecret now with
      | none => .error 401
      | some claims => .ok (AuthenticatedUser.ofClaims claims)

/-- A downstream response, carrying the status and the principal the handler
saw (if it ran at all). -/
structure Response where
  status : Nat
  principal : Option AuthenticatedUser
deriving Repr, DecidableEq

/-- The whole protected pipeline: on rejection the 401 response of the middleware
response is returned and `next` is never run; on admission the request,
with the principal attached, is handed to `next`. -/
def runProtected (jwtSecret : String) (now : Int) (req : Request)
    (next : AuthenticatedUser → Response) : Response :=
  match jwt_auth_impl jwtSecret now req with
  | .error s => { status := s, principal := none }
  | .ok u => next u

/-! ## Helper lemmas: the task operations never look at the `user_id` column -/

theorem rowToModel_setUserId (o : Option Nat) (r : TaskRow) :
    rowToModel (setUserId o r) = rowToModel r := rfl

theorem applyUpdate_setUserId (p : UpdateTaskPayload) (o : Option Nat) (r : TaskRow) :
    applyUpdate p (setUserId o r) = setUserId o (applyUpdate p r) := by
  unfold applyUpdate setUserId
  cases p.title <;> cases p.description <;> cases p.completed <;> rfl

theorem applyUpdate_description (p : UpdateTaskPayload) (r : TaskRow) :
    (applyUpdate p r).description
      = (match p.description with
         | some d => some d
         | none => r.description) := by
  unfold applyUpdate
  cases p.title <;> cases p.description <;> cases p.completed <;> rfl

theorem idPred_comp_setUserId (o : Option Nat) (id : Nat) :
    ((fun r : TaskRow => r.id == id) ∘ setUserId o) = fun r : TaskRow => r.id == id :=
  funext fun _ => rfl

theorem notIdPred_comp_setUserId (o : Option Nat) (id : Nat) :
    ((fun r : TaskRow => !(r.id == id)) ∘ setUserId o) = fun r : TaskRow => !(r.id == id) :=
  funext fun _ => rfl

theorem find?_map_setUserId (o : Option Nat) (db : List TaskRow) (id : Nat) :
    (db.map (setUserId o)).find? (fun r => r.id == id)
      = (db.find? (fun r => r.id == id)).map (setUserId o) := by
  rw [List.find?_map, idPred_comp_setUserId]

theorem filter_map_setUserId (o : Option Nat) (db : List TaskRow) (id : Nat) :
    (db.map (setUserId o)).filter (fun r => !(r.id == id))
      = (db.filter (fun r => !(r.id == id))).map (setUserId o) := by
  rw [List.filter_map, notIdPred_comp_setUserId]

theorem get_task_by_id_map_setUserId (o : Option Nat) (db : List TaskRow) (id : Nat) :
    get_task_by_id (db.map (setUserId o)) id = get_task_by_id db id := by
  unfold get_task_by_id TaskRepository.find_by_id
  rw [find?_map_setUserId]
  cases db.find? (fun r => r.id == id) <;> rfl

theorem delete_task_map_setUserId (o : Option Nat) (db : List TaskRow) (id : Nat) :
    delete_task (db.map (setUserId o)) id
      = (delete_task db id).map (List.map (setUserId o)) := by
  unfold delete_task TaskRepository.delete
  rw [filter_map_setUserId]
  simp only [List.length_map]
  cases h : (db.length - (db.filter (fun r => !(r.id == id))).length == 0) <;>
    simp [h, Except.map]

theorem update_task_map_setUserId (o : Option Nat) (db : List TaskRow) (id : Nat)
    (p : UpdateTaskPayload) :
    update_task (db.map (setUserId o)) id p
      = (update_task db id p).map (fun res => (res.1.map (setUserId o), res.2)) := by
  unfold update_task
  rw [find?_map_setUserId]
  cases h : db.find? (fun r => r.id == id) with
  | none => rfl
  | some r =>
    have h1 : (db.map (setUserId o)).map (fun s => if s.id == id then applyUpdate p s else s)
        = (db.map (fun s => if s.id == id then applyUpdate p s else s)).map (setUserId o) := by
      simp only [List.map_map]
      congr 1
      funext s
      show (if ((setUserId o s).id == id) = true then applyUpdate p (setUserId o s)
              else setUserId o s)
          = setUserId o (if (s.id == id) = true then applyUpdate p s else s)
      have hid : (setUserId o s).id = s.id := rfl
      rw [hid]
      cases hc : (s.id == id) <;> simp [hc, applyUpdate_setUserId]
    have h2 : rowToModel (applyUpdate p (setUserId o r)) = rowToModel (applyUpdate p r) := by
      rw [applyUpdate_setUserId, rowToModel_setUserId]
    have h3 : Option.map (setUserId o) (some r) = some (setUserId o r) := rfl
    rw [h3]
    show Except.ok ((db.map (setUserId o)).map (fun s => if s.id == id then applyUpdate p s else s),
        rowToModel (applyUpdate p (setUserId o r))) = _
    rw [h1, h2]
    rfl

/-! ## Claim C1 -/

/-- Claim C1 counterexample. The claim states that a task that exists but is
owned by a different user yields the same NotFound as an absent task id. In
the store below the single task row carries `user_id = 2` (a different user
than any principal with id 1), yet read-one returns the task, delete deletes
it, and update does not answer NotFound: ownership plays no part in the
queries. -/
theorem c1_counterexample :
    get_task_by_id [{ id := 1, title := "t", description := none, completed := false, createdAt := 0, updatedAt := 0, userId := some 2 }] 1
        ≠ .error (.TaskNotFound 1)
    ∧ get_task_by_id [{ id := 1, title := "t", description := none, completed := false, createdAt := 0, updatedAt := 0, userId := some 2 }] 1
        = .ok { id := 1, title := "t", description := none, completed := false, createdAt := 0, updatedAt := 0 }
    ∧ delete_task [{ id := 1, title := "t", description := none, completed := false, createdAt := 0, updatedAt := 0, userId := some 2 }] 1
        = .ok []
    ∧ update_task [{ id := 1, title := "t", description := none, completed := false, createdAt := 0, updatedAt := 0, userId := some 2 }] 1
          { title := none, description := none, completed := none }
        ≠ .error (.TaskNotFound 1) := by
  refine ⟨by decide, by decide, by decide, by decide⟩

/-- Claim C1 (amended): read-one, update and delete query the task store by
`task_id` alone — the `user_id` column never influences any of the three
outcomes (stated as invariance under arbitrary rewriting of the owner of
every row), and NotFound arises exactly when no row carries the requested id,
regardless of owners. -/
theorem c1_query_ignores_ownership (db : List TaskRow) (id : Nat) (o : Option Nat)
    (p : UpdateTaskPayload) :
    get_task_by_id (db.map (setUserId o)) id = get_task_by_id db id
    ∧ (∀ r, db.find? (fun s => s.id == id) = some r →
        get_task_by_id db id = .ok (rowToModel r))
    ∧ (db.find? (fun s => s.id == id) = none →
        get_task_by_id db id = .error (.TaskNotFound id))
    ∧ update_task (db.map (setUserId o)) id p
        = (update_task db id p).map (fun res => (res.1.map (setUserId o), res.2))
    ∧ delete_task (db.map (setUserId o)) id
        = (delete_task db id).map (List.map (setUserId o)) := by
  refine ⟨get_task_by_id_map_setUserId o db id, ?_, ?_,
    update_task_map_setUserId o db id p, delete_task_map_setUserId o db id⟩
  · intro r h
    unfold get_task_by_id TaskRepository.find_by_id
    rw [h]
    rfl
  · intro h
    unfold get_task_by_id TaskRepository.find_by_id
    rw [h]
    rfl

/-- Claim C1 witness: the amended theorem applied to a one-row store owned by
user 2, with the owner column rewritten to user 9: the read-one outcome is
unchanged and returns the row. -/
theorem c1_query_ignores_ownership_witness :
    get_task_by_id ([{ id := 1, title := "t", description := none, completed := false, createdAt := 0, updatedAt := 0, userId := some 2 }].map (setUserId (some 9))) 1
        = get_task_by_id [{ id := 1, title := "t", description := none, completed := false, createdAt := 0, updatedAt := 0, userId := some 2 }] 1
    ∧ get_task_by_id [{ id := 1, title := "t", description := none, completed := false, createdAt := 0, updatedAt := 0, userId := some 2 }] 1
        = .ok (rowToModel { id := 1, title := "t", description := none, completed := false, createdAt := 0, updatedAt := 0, userId := some 2 }) := by
  have h := c1_query_ignores_ownership
    [{ id := 1, title := "t", description := none, completed := false, createdAt := 0, updatedAt := 0, userId := some 2 }]
    1 (some 9) { title := none, description := none, completed := none }
  exact ⟨h.1, h.2.1 _ (by decide)⟩

/-! ## Claim C2 -/

/-- Claim C2 counterexample. The claim states that the owner of the persisted
task equals the user id of the authenticated principal. Creating a task (here while the
claimed principal has user id 7) persists a row whose `user_id` column is
NULL — not the id of the principal; the creation path carries no owner at all. -/
theorem c2_counterexample :
    ((create_task [] 1 0 { title := "buy milk", description := none, completed := false }).1.map
        (fun r => r.userId)) = [none]
    ∧ (none : Option Nat) ≠ some 7 := by
  refine ⟨by decide, by decide⟩

/-- Claim C2 (amended): the service constructs the new row from the payload
and a fresh id only; the `user_id` column of the row is left NULL, whoever is
authenticated — no client-supplied or principal-supplied owner is ever
stored. -/
theorem c2_create_stores_no_owner (db : List TaskRow) (freshId : Nat) (nowDb : Int)
    (payload : CreateTaskPayload) :
    (create_task db freshId nowDb payload).1 = db ++ [newTaskRow freshId nowDb payload]
    ∧ (newTaskRow freshId nowDb payload).userId = none
    ∧ (create_task db freshId nowDb payload).2 = rowToModel (newTaskRow freshId nowDb payload) :=
  ⟨rfl, rfl, rfl⟩

/-! ## Claim C3 -/

/-- Claim C3 counterexample. The claim states that list returns exactly the
own tasks of the caller. The store below holds one task with `user_id = 2`; for a
principal with user id 1 the claim predicts an empty listing, but
`get_all_tasks` returns the foreign task. -/
theorem c3_counterexample :
    get_all_tasks [{ id := 1, title := "t", description := none, completed := false, createdAt := 0, updatedAt := 0, userId := some 2 }]
        = [{ id := 1, title := "t", description := none, completed := false, createdAt := 0, updatedAt := 0 }]
    ∧ get_all_tasks [{ id := 1, title := "t", description := none, completed := false, createdAt := 0, updatedAt := 0, userId := some 2 }]
        ≠ [] := by
  refine ⟨by decide, by decide⟩

/-- Claim C3 (amended): list applies no owner filter at all: it returns every
stored task (one output per row, in store order), and its output is invariant
under arbitrary rewriting of the owner of every row. -/
theorem c3_list_returns_everything (db : List TaskRow) (o : Option Nat) :
    get_all_tasks db = db.map rowToModel
    ∧ get_all_tasks (db.map (setUserId o)) = get_all_tasks db
    ∧ (get_all_tasks db).length = db.length := by
  refine ⟨rfl, ?_, by simp [get_all_tasks, TaskRepository.find_all]⟩
  unfold get_all_tasks TaskRepository.find_all
  simp only [List.map_map]
  congr 1

/-! ## Claim C10 -/

/-- Claim C10: partial-update semantics. An absent `description` key and an
explicit `description: null` both deserialize to `None`; a payload field that
is `None` leaves the stored field unchanged, so the all-`None` payload leaves
the store and the task untouched, and no update can turn an existing
description back into NULL. -/
theorem c10_patch_semantics (j : UpdateTaskJson) (db : List TaskRow) (id : Nat)
    (r : TaskRow) (d : String) :
    (j.description = .missing ∨ j.description = .null →
      (parseUpdateTaskJson j).description = none)
    ∧ (db.find? (fun s => s.id == id) = some r →
        update_task db id { title := none, description := none, completed := none }
          = .ok (db, rowToModel r))
    ∧ (db.find? (fun s => s.id == id) = some r → r.description = some d →
        ∀ p res, update_task db id p = .ok res → res.2.description ≠ none) := by
  refine ⟨?_, ?_, ?_⟩
  · intro h
    cases h with
    | inl h => simp [parseUpdateTaskJson, doubleOptionDeserialize, h]
    | inr h => simp [parseUpdateTaskJson, doubleOptionDeserialize, h]
  · intro h
    unfold update_task
    rw [h]
    have hup : ∀ s : TaskRow,
        applyUpdate { title := none, description := none, completed := none } s = s :=
      fun s => rfl
    simp [hup]
  · intro hfind hdesc p res hupd
    unfold update_task at hupd
    rw [hfind] at hupd
    have hres : res = (db.map (fun s => if s.id == id then applyUpdate p s else s),
        rowToModel (applyUpdate p r)) := by
      cases hupd
      rfl
    have : res.2.description = (applyUpdate p r).description := by
      rw [hres]
      rfl
    rw [this, applyUpdate_description]
    cases p.description <;> simp [hdesc]

/-- Claim C10 witness: a JSON body with `description: null` parses to `none`,
and the all-`None` payload leaves a one-row store (whose task has a
description) fully unchanged. -/
theorem c10_patch_semantics_witness :
    (parseUpdateTaskJson { title := .missing, description := .null, completed := .missing }).description = none
    ∧ update_task [{ id := 1, title := "t", description := some "keep", completed := false, createdAt := 0, updatedAt := 0, userId := none }] 1
          { title := none, description := none, completed := none }
        = .ok ([{ id := 1, title := "t", description := some "keep", completed := false, createdAt := 0, updatedAt := 0, userId := none }],
            rowToModel { id := 1, title := "t", description := some "keep", completed := false, createdAt := 0, updatedAt := 0, userId := none }) := by
  have h := c10_patch_semantics { title := .missing, description := .null, completed := .missing }
    [{ id := 1, title := "t", description := some "keep", completed := false, createdAt := 0, updatedAt := 0, userId := none }]
    1 { id := 1, title := "t", description := some "keep", completed := false, createdAt := 0, updatedAt := 0, userId := none } "keep"
  exact ⟨h.1 (Or.inr rfl), h.2.1 (by decide)⟩

/-! ## Claim C4 -/

/-- Claim C4: enumeration resistance of login. For an unregistered username
(with any password) and for a registered username whose stored hash parses
but whose password fails verification, `login_user` produces the very same
`InvalidCredentials` value, hence the very same boundary response
`(401, "用户名或密码错误")`. (Registration only ever stores hashes produced by
the hashing service, which are parseable; the malformed-hash state is the
subject of C7.) -/
theorem c4_login_enumeration_resistance
    (parse : String → Except String ParsedHash) (verifyPw : String → ParsedHash → Bool)
    (db : List UserModel) (u1 p1 u2 p2 : String) (now : Int) (secret : String)
    (user : UserModel) (ph : ParsedHash)
    (h1 : UserRepository.find_by_username db u1 = none)
    (h2 : UserRepository.find_by_username db u2 = some user)
    (h3 : parse user.passwordHash = .ok ph)
    (h4 : verifyPw p2 ph = false) :
    login_user parse verifyPw db { username := u1, password := p1 } now secret
        = .error .InvalidCredentials
    ∧ login_user parse verifyPw db { username := u2, password := p2 } now secret
        = .error .InvalidCredentials
    ∧ login_user parse verifyPw db { username := u1, password := p1 } now secret
        = login_user parse verifyPw db { username := u2, password := p2 } now secret
    ∧ AppError.response .InvalidCredentials = (401, "用户名或密码错误") := by
  have e1 : login_user parse verifyPw db { username := u1, password := p1 } now secret
      = .error .InvalidCredentials := by
    simp [login_user, h1]
  have e2 : login_user parse verifyPw db { username := u2, password := p2 } now secret
      = .error .InvalidCredentials := by
    simp [login_user, h2, h3, h4]
  exact ⟨e1, e2, by rw [e1, e2], rfl⟩

/-- Claim C4 witness: a store with only `alice`. Logging in as the
never-registered `bob` and logging in as `alice` with a wrong password both
yield `InvalidCredentials`. -/
theorem c4_login_enumeration_resistance_witness :
    login_user (fun s => .ok { raw := s }) (fun p h => p == h.raw)
        [{ id := 1, username := "alice", passwordHash := "Secret123" }]
        { username := "bob", password := "whatever" } 0 "s"
      = .error .InvalidCredentials
    ∧ login_user (fun s => .ok { raw := s }) (fun p h => p == h.raw)
        [{ id := 1, username := "alice", passwordHash := "Secret123" }]
        { username := "alice", password := "WrongPass" } 0 "s"
      = .error .InvalidCredentials := by
  have h := c4_login_enumeration_resistance (fun s => .ok { raw := s })
    (fun p h => p == h.raw)
    [{ id := 1, username := "alice", passwordHash := "Secret123" }]
    "bob" "whatever" "alice" "WrongPass" 0 "s"
    { id := 1, username := "alice", passwordHash := "Secret123" } { raw := "Secret123" }
    (by decide) (by decide) (by decide) (by decide)
  exact ⟨h.1, h.2.1⟩

/-! ## Claim C5 -/

/-- Claim C5 counterexample. Pre-check against an empty store, insert into a
store that meanwhile gained `alice` (the losing side of the race): the flow
returns `DbErr` — rendered as the 500 Internal response — not the
`UserAlreadyExists` Conflict (409) the pre-check would have produced. -/
theorem c5_counterexample :
    register_user_race (fun s => s) 5 [] [{ id := 1, username := "alice", passwordHash := "h" }]
        { username := "alice", password := "Secret123", confirmPassword := "Secret123" }
      = .error (.DbErr (.uniqueViolation "UNIQUE constraint failed: user.username"))
    ∧ register_user_race (fun s => s) 5 [] [{ id := 1, username := "alice", passwordHash := "h" }]
        { username := "alice", password := "Secret123", confirmPassword := "Secret123" }
      ≠ .error (.UserAlreadyExists "alice")
    ∧ (AppError.DbErr (.uniqueViolation "UNIQUE constraint failed: user.username")).responseStatus = 500
    ∧ (AppError.UserAlreadyExists "alice").responseStatus = 409 := by
  refine ⟨by decide, by decide, rfl, rfl⟩

/-- Claim C5 (amended): whenever the pre-check passes but the
uniqueness constraint of the store rejects the insert, the registration flow surfaces the
propagated `DbErr` — the opaque 500 Internal outcome — and not the 409
Conflict of the pre-check. -/
theorem c5_race_surfaces_internal (hashFn : String → String) (freshId : Nat)
    (dbAtCheck dbAtInsert : List UserModel) (payload : RegisterRequest)
    (h1 : UserRepository.find_by_username dbAtCheck payload.username = none)
    (h2 : dbAtInsert.any (fun v => v.username == payload.username) = true) :
    register_user_race hashFn freshId dbAtCheck dbAtInsert payload
      = .error (.DbErr (.uniqueViolation "UNIQUE constraint failed: user.username"))
    ∧ (AppError.DbErr (.uniqueViolation "UNIQUE constraint failed: user.username")).responseStatus
        = 500
    ∧ (∀ u, (AppError.UserAlreadyExists u).responseStatus = 409) := by
  refine ⟨?_, rfl, fun u => rfl⟩
  simp [register_user_race, h1, UserRepository.create, h2]

/-- Claim C5 witness: the amended theorem at the concrete losing race. -/
theorem c5_race_surfaces_internal_witness :
    register_user_race (fun s => s) 5 [] [{ id := 1, username := "alice", passwordHash := "h" }]
        { username := "alice", password := "Secret123", confirmPassword := "Secret123" }
      = .error (.DbErr (.uniqueViolation "UNIQUE constraint failed: user.username")) :=
  (c5_race_surfaces_internal (fun s => s) 5 [] [{ id := 1, username := "alice", passwordHash := "h" }]
    { username := "alice", password := "Secret123", confirmPassword := "Secret123" }
    (by decide) (by decide)).1

/-! ## Claim C6 -/

/-- Every rejection of the middleware carries status 401. -/
theorem jwt_auth_impl_error_eq (secret : String) (now : Int) (req : Request) (s : Nat)
    (h : jwt_auth_impl secret now req = .error s) : s = 401 := by
  unfold jwt_auth_impl at h
  split at h
  · cases h
    rfl
  · split at h
    · cases h
      rfl
    · split at h
      · cases h
        rfl
      · cases h

/-- Claim C6: the token-validation middleware admits a request exactly when
the `Authorization` header is present, starts with `Bearer `, and the rest of
the header decodes (valid signature under the configured secret, unexpired
`exp`); the admitted principal is `{user_id = sub, username}`. In every other
case the single outcome is 401 and the downstream handler is never invoked
(the pipeline result does not depend on it). Decoding never accepts an
expired `exp`. -/
theorem c6_token_validation (secret : String) (now : Int) (req : Request) :
    (∀ u, jwt_auth_impl secret now req = .ok u ↔
      (∃ header claims, req.authHeader = some header
        ∧ strStartsWith header "Bearer " = true
        ∧ decodeToken (strDropChars header 7) secret now = some claims
        ∧ u = AuthenticatedUser.ofClaims claims))
    ∧ ((∃ u, jwt_auth_impl secret now req = .ok u) ∨ jwt_auth_impl secret now req = .error 401)
    ∧ (∀ tok c, decodeToken tok secret now = some c → now < c.exp)
    ∧ (jwt_auth_impl secret now req = .error 401 →
        ∀ n1 n2, runProtected secret now req n1 = runProtected secret now req n2) := by
  refine ⟨?_, ?_, ?_, ?_⟩
  · intro u
    constructor
    · intro h
      unfold jwt_auth_impl at h
      cases hh : req.authHeader with
      | none =>
        rw [hh] at h
        cases h
      | some header =>
        rw [hh] at h
        cases hb : strStartsWith header "Bearer " with
        | false =>
          simp [hb] at h
        | true =>
          simp only [hb, Bool.not_true] at h
          cases hd : decodeToken (strDropChars header 7) secret now with
          | none =>
            rw [hd] at h
            simp at h
          | some claims =>
            rw [hd] at h
            simp at h
            exact ⟨header, claims, rfl, hb, hd, h.symm⟩
    · rintro ⟨header, claims, hh, hb, hd, hu⟩
      unfold jwt_auth_impl
      rw [hh]
      simp [hb, hd, hu]
  · cases h : jwt_auth_impl secret now req with
    | ok u => exact Or.inl ⟨u, rfl⟩
    | error s =>
      right
      rw [jwt_auth_impl_error_eq secret now req s h]
  · intro tok c h
    unfold decodeToken at h
    split at h
    · split at h
      · split at h
        · rename_i hguard
          cases h
          simp only [Bool.and_eq_true, decide_eq_true_eq] at hguard
          exact hguard.2
        · cases h
      · cases h
    · cases h
  · intro h n1 n2
    unfold runProtected
    rw [h]

/-- Claim C6 witness: a well-formed bearer header carrying a token signed
with the configured secret and a future `exp` is admitted as the principal
built from the claims. -/
theorem c6_token_validation_witness :
    jwt_auth_impl "s" 0 { authHeader := some "Bearer 1|alice|100|0|sig:s" }
      = .ok { user_id := "1", username := "alice" } := by
  exact ((c6_token_validation "s" 0 { authHeader := some "Bearer 1|alice|100|0|sig:s" }).1
    { user_id := "1", username := "alice" }).mpr
    ⟨"Bearer 1|alice|100|0|sig:s", { sub := "1", username := "alice", exp := 100, iat := 0 },
      rfl, by decide, by decide, rfl⟩

/-! ## Claim C7 -/

/-- Claim C7 counterexample. A registered user whose stored hash string fails
to parse: login returns `PasswordHashError` — the 500 Internal outcome — not
the `InvalidCredentials` (401) of a wrong password, so the two cases are
distinguishable, contrary to the claim. -/
theorem c7_counterexample :
    login_user (fun _ => .error "invalid hash") (fun _ _ => true)
        [{ id := 1, username := "alice", passwordHash := "not-a-phc-string" }]
        { username := "alice", password := "whatever" } 0 "s"
      = .error (.PasswordHashError "invalid hash")
    ∧ login_user (fun _ => .error "invalid hash") (fun _ _ => true)
        [{ id := 1, username := "alice", passwordHash := "not-a-phc-string" }]
        { username := "alice", password := "whatever" } 0 "s"
      ≠ .error .InvalidCredentials
    ∧ (AppError.PasswordHashError "invalid hash").responseStatus = 500
    ∧ AppError.InvalidCredentials.responseStatus = 401 := by
  refine ⟨by decide, by decide, rfl, rfl⟩

/-- Claim C7 (amended): a stored hash that fails to parse is surfaced as
`PasswordHashError` — an error return (no crash) mapped to the opaque 500
Internal response — which is a different outcome from the
`InvalidCredentials` of a wrong password. -/
theorem c7_malformed_hash_internal (parse : String → Except String ParsedHash)
    (verifyPw : String → ParsedHash → Bool) (db : List UserModel)
    (payload : LoginRequest) (now : Int) (secret : String)
    (user : UserModel) (msg : String)
    (h1 : UserRepository.find_by_username db payload.username = some user)
    (h2 : parse user.passwordHash = .error msg) :
    login_user parse verifyPw db payload now secret = .error (.PasswordHashError msg)
    ∧ (AppError.PasswordHashError msg).responseStatus = 500
    ∧ (.error (.PasswordHashError msg) : Except AppError AuthResponse)
        ≠ .error .InvalidCredentials := by
  refine ⟨?_, rfl, by simp⟩
  simp [login_user, h1, h2]

/-- Claim C7 witness: the amended theorem at the malformed-hash store. -/
theorem c7_malformed_hash_internal_witness :
    login_user (fun _ => .error "invalid hash") (fun _ _ => true)
        [{ id := 1, username := "alice", passwordHash := "not-a-phc-string" }]
        { username := "alice", password := "whatever" } 0 "s"
      = .error (.PasswordHashError "invalid hash") :=
  (c7_malformed_hash_internal (fun _ => .error "invalid hash") (fun _ _ => true)
    [{ id := 1, username := "alice", passwordHash := "not-a-phc-string" }]
    { username := "alice", password := "whatever" } 0 "s"
    { id := 1, username := "alice", passwordHash := "not-a-phc-string" } "invalid hash"
    (by decide) (by decide)).1

/-! ## Claim C8 -/

/-- Claim C8 counterexample. A registration whose username has 51 characters
passes structural validation (only a 3-character minimum is enforced), and
the credential store is accessed: against an empty store the flow registers
the user, against a store already holding that username it answers Conflict —
no Validation error either way. -/
theorem c8_counterexample :
    RegisterRequest.isValid
        { username := String.mk (List.replicate 51 'a'), password := "password", confirmPassword := "password" }
      = true
    ∧ register_handler (fun s => s) 1 []
        { username := String.mk (List.replicate 51 'a'), password := "password", confirmPassword := "password" }
      = .ok ([{ id := 1, username := String.mk (List.replicate 51 'a'), passwordHash := "password" }],
          { id := 1, username := String.mk (List.replicate 51 'a') })
    ∧ register_handler (fun s => s) 1
        [{ id := 9, username := String.mk (List.replicate 51 'a'), passwordHash := "h" }]
        { username := String.mk (List.replicate 51 'a'), password := "password", confirmPassword := "password" }
      = .error (.UserAlreadyExists (String.mk (List.replicate 51 'a'))) := by
  refine ⟨by decide, by decide, by decide⟩

/-- Claim C8 (amended): structural validation enforces a 3-character minimum
on the username (plus an 8-character minimum on the password and the
confirmation match) but no maximum; a username shorter than 3 characters
fails with the Validation error and the outcome is independent of the store
（it is never consulted). -/
theorem c8_username_validation (r : RegisterRequest) (hashFn : String → String)
    (freshId : Nat) (db1 db2 : List UserModel) :
    (r.isValid = true ↔
      (3 ≤ r.username.length ∧ 8 ≤ r.password.length ∧ r.confirmPassword = r.password))
    ∧ (r.username.length < 3 → r.isValid = false)
    ∧ (r.isValid = false →
        register_handler hashFn freshId db1 r = .error (.BadRequest "输入验证失败")
        ∧ register_handler hashFn freshId db1 r = register_handler hashFn freshId db2 r) := by
  refine ⟨?_, ?_, ?_⟩
  · simp [RegisterRequest.isValid, Bool.and_eq_true, decide_eq_true_eq, beq_iff_eq, and_assoc]
  · intro h
    have hn : ¬ 3 ≤ r.username.length := by omega
    simp [RegisterRequest.isValid, hn]
  · intro h
    constructor
    · simp [register_handler, h]
    · simp [register_handler, h]

/-- Claim C8 witness: the amended theorem at a 2-character username: the
request is invalid and the handler answers the Validation error whatever the
store holds. -/
theorem c8_username_validation_witness :
    register_handler (fun s => s) 1 []
        { username := "ab", password := "password", confirmPassword := "password" }
      = .error (.BadRequest "输入验证失败")
    ∧ register_handler (fun s => s) 1 []
        { username := "ab", password := "password", confirmPassword := "password" }
      = register_handler (fun s => s) 1 [{ id := 1, username := "x", passwordHash := "y" }]
        { username := "ab", password := "password", confirmPassword := "password" } := by
  have h := (c8_username_validation
    { username := "ab", password := "password", confirmPassword := "password" }
    (fun s => s) 1 [] [{ id := 1, username := "x", passwordHash := "y" }]).2.2 (by decide)
  exact h

/-! ## Claim C9 -/

/-- Claim C9: on every successful login the issued claims have
`exp = iat + 86400` (24 hours), hence `exp > iat`, and the
`expires_in` field of the response is that same 86400. -/
theorem c9_token_lifetime (parse : String → Except String ParsedHash)
    (verifyPw : String → ParsedHash → Bool) (db : List UserModel)
    (payload : LoginRequest) (now : Int) (secret : String)
    (user : UserModel) (ph : ParsedHash)
    (h1 : UserRepository.find_by_username db payload.username = some user)
    (h2 : parse user.passwordHash = .ok ph)
    (h3 : verifyPw payload.password ph = true) :
    login_user parse verifyPw db payload now secret
      = .ok { accessToken := encodeToken (loginClaims user now) secret,
              tokenType := "Bearer", expiresIn := tokenLifetimeSeconds,
              user := { id := user.id, username := user.username } }
    ∧ (loginClaims user now).exp = (loginClaims user now).iat + 86400
    ∧ (loginClaims user now).iat < (loginClaims user now).exp
    ∧ tokenLifetimeSeconds = 86400 := by
  refine ⟨?_, ?_, ?_, by norm_num [tokenLifetimeSeconds]⟩
  · simp [login_user, h1, h2, h3]
  · norm_num [loginClaims, tokenLifetimeSeconds]
  · norm_num [loginClaims, tokenLifetimeSeconds]

/-- Claim C9 witness: the lifetime theorem at a concrete successful login. -/
theorem c9_token_lifetime_witness :
    login_user (fun s => .ok { raw := s }) (fun p h => p == h.raw)
        [{ id := 1, username := "alice", passwordHash := "Secret123" }]
        { username := "alice", password := "Secret123" } 0 "s"
      = .ok { accessToken := encodeToken (loginClaims { id := 1, username := "alice", passwordHash := "Secret123" } 0) "s",
              tokenType := "Bearer", expiresIn := tokenLifetimeSeconds,
              user := { id := 1, username := "alice" } }
    ∧ (loginClaims { id := 1, username := "alice", passwordHash := "Secret123" } 0).exp
        = (loginClaims { id := 1, username := "alice", passwordHash := "Secret123" } 0).iat + 86400 := by
  have h := c9_token_lifetime (fun s => .ok { raw := s }) (fun p h => p == h.raw)
    [{ id := 1, username := "alice", passwordHash := "Secret123" }]
    { username := "alice", password := "Secret123" } 0 "s"
    { id := 1, username := "alice", passwordHash := "Secret123" } { raw := "Secret123" }
    (by decide) (by decide) (by decide)
  exact ⟨h.1, h.2.1⟩

end TaskApi
